import Mathlib

/-
Verification of the Board presenter and task state-synchronization layer of
the `taskmanager` repository.

Shallow embedding conventions:
- JavaScript `Date` values are embedded as `Int` millisecond timestamps
  (`Date.prototype.getTime`); a `null` due date is `Option.none`.
- The "current moment truncated to end-of-day" that `getCurrentDate()`
  computes from the wall clock is passed in explicitly as a parameter
  (`currentDate` / `now`), since the embedding has no clock.
- `getRandomInteger` draws are passed in explicitly as parameters at each
  call site of the mock generator.
- The JavaScript object used as the id → presenter registry is embedded as
  an association list with JavaScript property-assignment semantics
  (overwrite the existing key, otherwise append).
- Service calls (`api.updateTask` / `addTask` / `deleteTask`) are split into
  a synchronous dispatch part and a continuation part; the promise outcome
  is a parameter of the continuation, and the continuation may run against
  any later state (modelling late callbacks).  A JavaScript `TypeError`
  (property access on `undefined`) is embedded as `Except.error`.
- Parts of the repository referenced by the Board but not present in the
  sources (the filter map `utils/filter.js`, the comparators `sortTasksUp`
  / `sortTasksDown`, the two models, the item / creation presenters) are
  modelled from the specification; each such definition carries a doc
  comment starting with "Modelled from the spec:".
-/

namespace TaskManager

/-! ## Data model -/

/-- The seven independent weekday flags of a task (`repeating` object). -/
structure RepeatingDays where
  mo : Bool
  tu : Bool
  we : Bool
  th : Bool
  fr : Bool
  sa : Bool
  su : Bool
deriving DecidableEq, Repr

/-- The all-false repeating object literal of the source. -/
def RepeatingDays.allFalse : RepeatingDays :=
  ⟨false, false, false, false, false, false, false⟩

/-- A task entity as held by the collection model: id (server-assigned),
description, optional due date (ms timestamp), repeating flags, color,
archive and favorite flags. -/
structure Task where
  id : Nat
  description : String
  dueDate : Option Int
  repeating : RepeatingDays
  color : String
  isArchive : Bool
  isFavorite : Bool
deriving DecidableEq, Repr

/-- A task as produced by the mock generator `generateTask` (it has no `id`
field; ids are assigned elsewhere). -/
structure MockTask where
  description : String
  dueDate : Option Int
  repeating : RepeatingDays
  color : String
  isArchive : Bool
  isFavorite : Bool
deriving DecidableEq, Repr

/-- `SortType` from `const.js`. -/
inductive SortType where
  | DEFAULT
  | DATE_UP
  | DATE_DOWN
deriving DecidableEq, Repr

/-- `UserAction` from `const.js`. -/
inductive UserAction where
  | UPDATE_TASK
  | ADD_TASK
  | DELETE_TASK
deriving DecidableEq, Repr

/-- `UpdateType` from `const.js`. -/
inductive UpdateType where
  | PATCH
  | MINOR
  | MAJOR
  | INIT
deriving DecidableEq, Repr

/-- `FilterType` categories (spec §3: "all", "overdue", "today",
"favorites", "archive"). -/
inductive FilterType where
  | ALL
  | OVERDUE
  | TODAY
  | FAVORITES
  | ARCHIVE
deriving DecidableEq, Repr

/-! ## `utils/task.js` date helpers (from the source) -/

/-- `isTaskExpired(dueDate)`: `false` for a `null` due date, otherwise
compares `getCurrentDate().getTime() > dueDate.getTime()`.  `currentDate`
is the end-of-day moment `getCurrentDate()` returns. -/
def isTaskExpired (currentDate : Int) (dueDate : Option Int) : Bool :=
  match dueDate with
  | none => false
  | some d => decide (currentDate > d)

/-- `isTaskExpiringToday(dueDate)`: `false` for a `null` due date, otherwise
compares `getCurrentDate().getTime() === dueDate.getTime()`. -/
def isTaskExpiringToday (currentDate : Int) (dueDate : Option Int) : Bool :=
  match dueDate with
  | none => false
  | some d => decide (currentDate = d)

/-- `isTaskRepeating(repeating)`: `Object.values(repeating).some(Boolean)`. -/
def isTaskRepeating (r : RepeatingDays) : Bool :=
  r.mo || r.tu || r.we || r.th || r.fr || r.sa || r.su

/-! ## Filter (`utils/filter.js` is absent from the sources) -/

/-- Modelled from the spec: `utils/filter.js` is imported by the Board but
absent from the sources.  Spec §4.1: filtering is a pure predicate per
category — "overdue": due date present and strictly before the current
moment truncated to end-of-day; "today": due date present and equal to
end-of-day of the current date; "favorites": `isFavorite`; "archive":
`isArchive`; "all" carries no restriction. -/
def filterPredicate (now : Int) : FilterType → Task → Bool
  | .ALL, _ => true
  | .OVERDUE, t => isTaskExpired now t.dueDate
  | .TODAY, t => isTaskExpiringToday now t.dueDate
  | .FAVORITES, t => t.isFavorite
  | .ARCHIVE, t => t.isArchive

/-- `filter[filterType](tasks)`: each category maps the collection through
`Array.prototype.filter` with its predicate. -/
def filterTasks (now : Int) (ft : FilterType) (tasks : List Task) : List Task :=
  tasks.filter (filterPredicate now ft)

/-! ## Sort comparators (`sortTasksUp` / `sortTasksDown` are absent from the
sources) -/

/-- Modelled from the spec: the comparators `sortTasksUp` / `sortTasksDown`
are imported by the Board from `utils/task` but absent from the sources.
Spec §4.1: tasks with an absent due date occupy a fixed position using a
defined tie-break — absent dates sort last (the spec's documented choice) —
regardless of sort direction; dated tasks compare by due date.  This is the
shared null-date weight of the ascending comparator. -/
def sortTasksUp (a b : Task) : Int :=
  match a.dueDate, b.dueDate with
  | none, none => 0
  | none, some _ => 1
  | some _, none => -1
  | some da, some db => da - db

/-- Modelled from the spec: descending counterpart of `sortTasksUp`; the
null-date tie-break (absent dates last) is identical in both directions,
dated tasks compare by due date reversed. -/
def sortTasksDown (a b : Task) : Int :=
  match a.dueDate, b.dueDate with
  | none, none => 0
  | none, some _ => 1
  | some _, none => -1
  | some da, some db => db - da

/-- Stable insertion step for `Array.prototype.sort` with a JavaScript
three-way comparator: an element is placed before the first element it
compares `≤ 0` against. -/
def insertByCmp (cmp : Task → Task → Int) (x : Task) : List Task → List Task
  | [] => [x]
  | y :: ys => if cmp x y ≤ 0 then x :: y :: ys else y :: insertByCmp cmp x ys

/-- `Array.prototype.sort(cmp)` embedded as a stable insertion sort (the
engines the source targets implement a stable sort). -/
def arraySort (cmp : Task → Task → Int) : List Task → List Task
  | [] => []
  | x :: xs => insertByCmp cmp x (arraySort cmp xs)

/-! ## Mock generator (`mock/task.js`, from the source) -/

/-- The description pool of `generateDescription`. -/
def descriptions : List String :=
  ["Изучить теорию", "Сделать домашку", "Пройти интенсив на соточку"]

/-- `generateDescription()`: picks `descriptions[randomIndex]` with
`randomIndex = getRandomInteger(0, descriptions.length - 1)`; the drawn
index is a parameter. -/
def generateDescription (randomIndex : Nat) : String :=
  descriptions.getD randomIndex ""

/-- Milliseconds per day (`setDate(getDate() + daysGap)` shifts whole
days). -/
def msPerDay : Int := 86400000

/-- `generateDate()`: returns `null` when the drawn boolean is false,
otherwise today's date set to 23:59:59.999 shifted by `daysGap` days.
`isDate` and `daysGap` are the `getRandomInteger` draws; `endOfToday` is
the end-of-day timestamp of the current date. -/
def generateDate (isDate : Bool) (daysGap : Int) (endOfToday : Int) : Option Int :=
  if !isDate then
    none
  else
    some (endOfToday + daysGap * msPerDay)

/-- `generateRepeatingDays()`: all flags false except `we` and `fr`, which
are random draws. -/
def generateRepeatingDays (weFlag frFlag : Bool) : RepeatingDays :=
  ⟨false, false, weFlag, false, frFlag, false, false⟩

/-- Modelled from the spec: the palette `COLORS` lives in `const.js`, which
is absent from the sources; the spec only requires "one value from a fixed
enumerated palette". -/
def COLORS : List String :=
  ["black", "yellow", "blue", "green", "pink"]

/-- `getRandomColor()`: picks `COLORS[randomIndex]`. -/
def getRandomColor (randomIndex : Nat) : String :=
  COLORS.getD randomIndex ""

/-- `generateTask()` from `mock/task.js`: draws a due date; the repeating
object is freshly drawn when the due date is `null` and the all-false
literal otherwise.  All `getRandomInteger` draws are parameters. -/
def generateTask (isDate : Bool) (daysGap : Int) (endOfToday : Int)
    (weFlag frFlag : Bool) (descIndex colorIndex : Nat)
    (isArchive isFavorite : Bool) : MockTask :=
  let dueDate := generateDate isDate daysGap endOfToday
  let repeating :=
    match dueDate with
    | none => generateRepeatingDays weFlag frFlag
    | some _ => ⟨false, false, false, false, false, false, false⟩
  { description := generateDescription descIndex
    dueDate := dueDate
    repeating := repeating
    color := getRandomColor colorIndex
    isArchive := isArchive
    isFavorite := isFavorite }

/-! ## Item presenter and presenter registry -/

/-- Modelled from the spec: the per-entity view states of
`TaskItemPresenter` (spec §4.2; `presenter/task.js` is absent from the
sources).  `SAVING` / `DELETING` / `ABORTING` are the members of the
exported `State` enumeration that `setViewState` applies; `NORMAL` and
`EDITING` are the display / form modes. -/
inductive PresenterViewState where
  | NORMAL
  | EDITING
  | SAVING
  | DELETING
  | ABORTING
deriving DecidableEq, Repr

/-- Modelled from the spec: the observable part of one `TaskItemPresenter`
— the entity data it was last initialised with and its current view
state. -/
structure Presenter where
  task : Task
  viewState : PresenterViewState
deriving DecidableEq, Repr

/-- Modelled from the spec: `init(task)` "(re)binds the presenter to current
entity data and re-renders" (spec §4.2); after a confirmed update the row is
re-rendered closed with the server-confirmed data. -/
def Presenter.init (data : Task) : Presenter :=
  { task := data, viewState := .NORMAL }

/-- Modelled from the spec: the lifecycle states of the singleton
`TaskCreationPresenter` (spec §4.3; `presenter/task-new.js` is absent from
the sources): destroyed/dismissed, open, saving, aborting. -/
inductive NewPresenterState where
  | inactive
  | active
  | saving
  | aborting
deriving DecidableEq, Repr

/-- The id → presenter registry (`this._taskPresenter`, a JavaScript
object), embedded as an association list. -/
abbrev Registry : Type := List (Nat × Presenter)

/-- Property read `obj[k]` on the registry object. -/
def mapLookup (k : Nat) : Registry → Option Presenter
  | [] => none
  | (k', v) :: rest => if k' = k then some v else mapLookup k rest

/-- Property assignment `obj[k] = v` on the registry object: overwrite the
existing key, otherwise append. -/
def mapSet (k : Nat) (v : Presenter) : Registry → Registry
  | [] => [(k, v)]
  | (k', v') :: rest =>
      if k' = k then (k, v) :: rest else (k', v') :: mapSet k v rest

/-! ## Board presenter state -/

/-- `TASK_AMOUNT_PER_STEP` from `presenter/board.js`. -/
def TASK_AMOUNT_PER_STEP : Nat := 8

/-- The observable state of the Board presenter together with the two
models it subscribes to.  `tasks` is the collection model's sequence,
`filterType` the filter model's current category; `renderedList` is the
ordered sequence of task rows currently rendered into the task-list
component; the `…Shown` / `…Present` booleans record which auxiliary
components are currently rendered. -/
structure BoardState where
  tasks : List Task
  filterType : FilterType
  currentSortType : SortType
  renderedTasksCount : Nat
  taskPresenter : Registry
  taskNewPresenter : NewPresenterState
  isLoading : Bool
  loadingShown : Bool
  noTasksShown : Bool
  sortShown : Bool
  loadMoreButtonPresent : Bool
  renderedList : List Task
deriving DecidableEq, Repr

/-- `Board._getTasks()`: read the filter model, read the task model, filter,
then sort by the current sort type (`DEFAULT` keeps filtered order). -/
def getTasks (now : Int) (s : BoardState) : List Task :=
  let filtredTasks := filterTasks now s.filterType s.tasks
  match s.currentSortType with
  | .DATE_UP => arraySort sortTasksUp filtredTasks
  | .DATE_DOWN => arraySort sortTasksDown filtredTasks
  | .DEFAULT => filtredTasks

/-- `Board._renderTask(task)`: create a presenter, `init` it with the task,
store it under `task.id`; the row is rendered at the end of the list. -/
def renderTask (task : Task) (s : BoardState) : BoardState :=
  { s with
    taskPresenter := mapSet task.id (Presenter.init task) s.taskPresenter
    renderedList := s.renderedList ++ [task] }

/-- `Board._renderTasks(tasks)`: render each task in order. -/
def renderTasks (tasks : List Task) (s : BoardState) : BoardState :=
  tasks.foldl (fun acc t => renderTask t acc) s

/-- `Board._renderLoading()`. -/
def renderLoading (s : BoardState) : BoardState :=
  { s with loadingShown := true }

/-- `Board._renderNoTasks()`. -/
def renderNoTasks (s : BoardState) : BoardState :=
  { s with noTasksShown := true }

/-- `Board._renderSort()`. -/
def renderSort (s : BoardState) : BoardState :=
  { s with sortShown := true }

/-- `Board._renderLoadMoreButton()`. -/
def renderLoadMoreButton (s : BoardState) : BoardState :=
  { s with loadMoreButtonPresent := true }

/-- `Board._renderBoard()`: loading placeholder while loading; empty-state
when the visible set is empty; otherwise the sort control, the slice
`tasks.slice(0, Math.min(taskCount, renderedTasksCount))`, and the
load-more button when `taskCount > renderedTasksCount`.  The source checks
the button condition after `_renderTasks`, which leaves
`_renderedTasksCount` untouched, so the condition is read off `s`
directly. -/
def renderBoard (now : Int) (s : BoardState) : BoardState :=
  if s.isLoading then
    renderLoading s
  else if (getTasks now s).length = 0 then
    renderNoTasks s
  else if (getTasks now s).length > s.renderedTasksCount then
    renderLoadMoreButton
      (renderTasks ((getTasks now s).take (min (getTasks now s).length s.renderedTasksCount))
        (renderSort s))
  else
    renderTasks ((getTasks now s).take (min (getTasks now s).length s.renderedTasksCount))
      (renderSort s)

/-- `Board._clearBoard({resetRenderedTaskCount, resetSortType})`: destroy
the creation presenter and every item presenter, empty the registry, remove
the sort / empty-state / loading / load-more components; reset the cursor
to the page size when asked, otherwise clamp it to the visible count; reset
the sort type when asked. -/
def clearBoard (now : Int) (resetRenderedTaskCount resetSortType : Bool)
    (s : BoardState) : BoardState :=
  { s with
    taskNewPresenter := .inactive
    taskPresenter := []
    renderedList := []
    sortShown := false
    noTasksShown := false
    loadingShown := false
    loadMoreButtonPresent := false
    renderedTasksCount :=
      if resetRenderedTaskCount then TASK_AMOUNT_PER_STEP
      else min (getTasks now s).length s.renderedTasksCount
    currentSortType :=
      if resetSortType then SortType.DEFAULT else s.currentSortType }

/-- `newRenderedTaskCount` of `Board._handleLoadMoreButtonClick()`:
`Math.min(taskCount, renderedTasksCount + TASK_AMOUNT_PER_STEP)`. -/
def loadMoreNewCount (now : Int) (s : BoardState) : Nat :=
  min (getTasks now s).length (s.renderedTasksCount + TASK_AMOUNT_PER_STEP)

/-- `Board._handleLoadMoreButtonClick()`: render only
`tasks.slice(renderedTasksCount, newRenderedTaskCount)`, advance the cursor
to `newRenderedTaskCount`, and remove the load-more button once the new
cursor has reached the visible count (the source reads the condition after
the cursor assignment; `_renderTasks` leaves every field it mentions
untouched, so both are computed from `s`). -/
def handleLoadMoreButtonClick (now : Int) (s : BoardState) : BoardState :=
  if (getTasks now s).length ≤ loadMoreNewCount now s then
    { renderTasks
        (((getTasks now s).drop s.renderedTasksCount).take
          (loadMoreNewCount now s - s.renderedTasksCount)) s with
      renderedTasksCount := loadMoreNewCount now s
      loadMoreButtonPresent := false }
  else
    { renderTasks
        (((getTasks now s).drop s.renderedTasksCount).take
          (loadMoreNewCount now s - s.renderedTasksCount)) s with
      renderedTasksCount := loadMoreNewCount now s }

/-- `Board._handleSortTypeChange(sortType)`: no-op when unchanged; otherwise
set the sort type, clear the board with the cursor reset (sort type kept),
and re-render. -/
def handleSortTypeChange (now : Int) (sortType : SortType) (s : BoardState) : BoardState :=
  if s.currentSortType = sortType then
    s
  else
    renderBoard now (clearBoard now true false { s with currentSortType := sortType })

/-- The JavaScript `TypeError` raised by a property access on `undefined`
(`this._taskPresenter[id]` when no presenter is registered for `id`). -/
def presenterLookupFault : String :=
  "TypeError: cannot read properties of undefined"

/-- `Board._handleModelEvent(updateType, data)`: `PATCH` re-initialises the
presenter registered for `data.id` (an unguarded `[data.id].init` — a
`TypeError` when none is registered); `MINOR` clears and re-renders;
`MAJOR` clears with cursor and sort reset and re-renders; `INIT` drops the
loading flag, removes the loading placeholder and renders the board. -/
def handleModelEvent (now : Int) (updateType : UpdateType) (data : Task)
    (s : BoardState) : Except String BoardState :=
  match updateType with
  | .PATCH =>
    match mapLookup data.id s.taskPresenter with
    | none => .error presenterLookupFault
    | some _ =>
        .ok { s with taskPresenter := mapSet data.id (Presenter.init data) s.taskPresenter }
  | .MINOR => .ok (renderBoard now (clearBoard now false false s))
  | .MAJOR => .ok (renderBoard now (clearBoard now true true s))
  | .INIT => .ok (renderBoard now { s with isLoading := false, loadingShown := false })

/-! ## Collection model operations (`model/tasks.js` is absent from the
sources) -/

/-- Modelled from the spec: `TaskCollectionModel` update-by-id "replaces
exactly one entity" (spec §3) and fires one notification. -/
def modelUpdateTask (update : Task) (tasks : List Task) : List Task :=
  tasks.map (fun t => if t.id = update.id then update else t)

/-- Modelled from the spec: `TaskCollectionModel` add inserts the new entity
at the front of the sequence and fires one notification. -/
def modelAddTask (update : Task) (tasks : List Task) : List Task :=
  update :: tasks

/-- Modelled from the spec: `TaskCollectionModel` delete-by-id "removes
exactly one entity" (spec §3) and fires one notification. -/
def modelDeleteTask (update : Task) (tasks : List Task) : List Task :=
  tasks.filter (fun t => t.id ≠ update.id)

/-! ## Action dispatch (`Board._handleViewAction`) -/

/-- One invocation of the async service collaborator. -/
inductive ApiCall where
  | updateTask (t : Task)
  | addTask (t : Task)
  | deleteTask (t : Task)
deriving DecidableEq, Repr

/-- The settled outcome of one service promise. -/
inductive ApiOutcome where
  | success (response : Task)
  | failure
deriving DecidableEq, Repr

/-- The synchronous part of `Board._handleViewAction(actionType, updateType,
update)`: mark the origin presenter busy (`SAVING` / `DELETING`, or
`setSaving` on the creation presenter) and issue the service call.  The
presenter lookups are unguarded property accesses — a `TypeError` when no
presenter is registered for `update.id`.  Returns the new state and the
list of service calls issued. -/
def handleViewActionStart (actionType : UserAction) (update : Task)
    (s : BoardState) : Except String (BoardState × List ApiCall) :=
  match actionType with
  | .UPDATE_TASK =>
    match mapLookup update.id s.taskPresenter with
    | none => .error presenterLookupFault
    | some p =>
        .ok ({ s with taskPresenter := mapSet update.id { p with viewState := .SAVING } s.taskPresenter },
          [ApiCall.updateTask update])
  | .ADD_TASK =>
      .ok ({ s with taskNewPresenter := .saving }, [ApiCall.addTask update])
  | .DELETE_TASK =>
    match mapLookup update.id s.taskPresenter with
    | none => .error presenterLookupFault
    | some p =>
        .ok ({ s with taskPresenter := mapSet update.id { p with viewState := .DELETING } s.taskPresenter },
          [ApiCall.deleteTask update])

/-- The continuation part of `Board._handleViewAction`: the `.then` /
`.catch` callbacks, run against whatever board state is current when the
promise settles (so a late callback may find the presenter gone — the
`catch` callbacks again access `this._taskPresenter[update.id]`
unguarded).  On success the collection model applies the change and its
notification drives `_handleModelEvent`; on failure the model is untouched
and the origin presenter is set to `ABORTING`.  Returns the new state and
the list of service calls issued (always none: no retry). -/
def handleViewActionResolve (now : Int) (actionType : UserAction)
    (updateType : UpdateType) (update : Task) (outcome : ApiOutcome)
    (s : BoardState) : Except String (BoardState × List ApiCall) :=
  match actionType, outcome with
  | .UPDATE_TASK, .success response =>
      (handleModelEvent now updateType response
        { s with tasks := modelUpdateTask response s.tasks }).map (fun s' => (s', []))
  | .UPDATE_TASK, .failure =>
    match mapLookup update.id s.taskPresenter with
    | none => .error presenterLookupFault
    | some p =>
        .ok ({ s with taskPresenter := mapSet update.id { p with viewState := .ABORTING } s.taskPresenter },
          [])
  | .ADD_TASK, .success response =>
      (handleModelEvent now updateType response
        { s with tasks := modelAddTask response s.tasks }).map (fun s' => (s', []))
  | .ADD_TASK, .failure =>
      .ok ({ s with taskNewPresenter := .aborting }, [])
  | .DELETE_TASK, .success _ =>
      (handleModelEvent now updateType update
        { s with tasks := modelDeleteTask update s.tasks }).map (fun s' => (s', []))
  | .DELETE_TASK, .failure =>
    match mapLookup update.id s.taskPresenter with
    | none => .error presenterLookupFault
    | some p =>
        .ok ({ s with taskPresenter := mapSet update.id { p with viewState := .ABORTING } s.taskPresenter },
          [])

/-- Look a task up in the collection model by id. -/
def findTaskById (i : Nat) (tasks : List Task) : Option Task :=
  tasks.find? (fun t => t.id = i)

/-- `k` successive clicks of the load-more button. -/
def loadMoreIter (now : Int) : Nat → BoardState → BoardState
  | 0, s => s
  | k + 1, s => handleLoadMoreButtonClick now (loadMoreIter now k s)

/-- The registry contents produced by rendering a list of tasks in order
(the fold `_renderTasks` performs on `this._taskPresenter`). -/
def addPresenters (ts : List Task) (m : Registry) : Registry :=
  ts.foldl (fun acc t => mapSet t.id (Presenter.init t) acc) m

/-- The tasks excluded by a filter pass (the complement of
`filter[filterType](tasks)`). -/
def excludedTasks (now : Int) (ft : FilterType) (tasks : List Task) : List Task :=
  tasks.filter (fun t => !(filterPredicate now ft t))

/-! ## Concrete fixtures -/

/-- A minimal dated-or-not task with a given id, used in concrete runs. -/
def mkTask (i : Nat) : Task :=
  { id := i
    description := "task"
    dueDate := none
    repeating := RepeatingDays.allFalse
    color := "black"
    isArchive := false
    isFavorite := false }

/-- The board state right after the first `INIT` notification cleared the
loading flag and before `_renderBoard` ran: cursor at the page size, empty
registry, nothing rendered. -/
def freshBoardState (tasks : List Task) (ft : FilterType) (st : SortType) : BoardState :=
  { tasks := tasks
    filterType := ft
    currentSortType := st
    renderedTasksCount := TASK_AMOUNT_PER_STEP
    taskPresenter := []
    taskNewPresenter := .inactive
    isLoading := false
    loadingShown := false
    noTasksShown := false
    sortShown := false
    loadMoreButtonPresent := false
    renderedList := [] }

/-- The first full render of a fresh board. -/
def initialRender (now : Int) (tasks : List Task) (ft : FilterType) (st : SortType) : BoardState :=
  renderBoard now (freshBoardState tasks ft st)

/-- The visible sequence of a fresh board. -/
def visibleOf (now : Int) (tasks : List Task) (ft : FilterType) (st : SortType) : List Task :=
  getTasks now (freshBoardState tasks ft st)

/-- A board holding one task whose presenter is registered. -/
def oneTaskBoard : BoardState :=
  { freshBoardState [mkTask 1] FilterType.ALL SortType.DEFAULT with
    taskPresenter := [(1, Presenter.init (mkTask 1))]
    renderedList := [mkTask 1]
    renderedTasksCount := 1 }

/-- A board holding one task whose presenter registry is empty (for
example after the task row was discarded by a re-render). -/
def stalePresenterBoard : BoardState :=
  freshBoardState [mkTask 1] FilterType.ALL SortType.DEFAULT

/-- A board that has materialized two pages (cursor 16) of a visible set
that meanwhile shrank to 15 tasks. -/
def shrunkBoard : BoardState :=
  { freshBoardState ((List.range 15).map mkTask) FilterType.ALL SortType.DEFAULT with
    renderedTasksCount := 16
    loadMoreButtonPresent := true }

/-- Scenario task `{id:1, desc:"A", dueDate:null}`. -/
def scenarioTaskA : Task :=
  { id := 1
    description := "A"
    dueDate := none
    repeating := RepeatingDays.allFalse
    color := "black"
    isArchive := false
    isFavorite := false }

/-- Scenario task `{id:2, desc:"B", dueDate:<tomorrow>}` (tomorrow's
end-of-day relative to `now = 0` is one day in milliseconds). -/
def scenarioTaskB : Task :=
  { id := 2
    description := "B"
    dueDate := some 86400000
    repeating := RepeatingDays.allFalse
    color := "black"
    isArchive := false
    isFavorite := false }

/-- The scenario board: collection `[A, B]`, filter "all", sort
date-ascending. -/
def scenarioBoard : BoardState :=
  freshBoardState [scenarioTaskA, scenarioTaskB] FilterType.ALL SortType.DATE_UP

/-- A board with a stale presenter for id 99, an open creation presenter
and two tasks in the model — input for a structural clear and full
re-render. -/
def staleRegistryBoard : BoardState :=
  { freshBoardState [mkTask 0, mkTask 1] FilterType.ALL SortType.DEFAULT with
    taskPresenter := [(99, Presenter.init (mkTask 99))]
    taskNewPresenter := .active
    renderedList := [mkTask 99] }

/-! ## Registry lemmas -/

theorem mapLookup_mapSet_self (k : Nat) (v : Presenter) (m : Registry) :
    mapLookup k (mapSet k v m) = some v := by
  induction m with
  | nil => simp [mapSet, mapLookup]
  | cons e rest ih =>
    obtain ⟨a, b⟩ := e
    by_cases h : a = k <;> simp [mapSet, mapLookup, h, ih]

theorem mapLookup_mapSet_ne (j k : Nat) (v : Presenter) (m : Registry) (h : j ≠ k) :
    mapLookup j (mapSet k v m) = mapLookup j m := by
  induction m with
  | nil => simp [mapSet, mapLookup, h.symm]
  | cons e rest ih =>
    obtain ⟨a, b⟩ := e
    by_cases ha : a = k
    · subst ha
      simp [mapSet, mapLookup, h.symm]
    · simp [mapSet, mapLookup, ha, ih]

theorem mapLookup_addPresenters_of_not_mem (ts : List Task) (m : Registry) (j : Nat)
    (h : j ∉ ts.map Task.id) :
    mapLookup j (addPresenters ts m) = mapLookup j m := by
  induction ts generalizing m with
  | nil => rfl
  | cons t ts ih =>
    simp only [List.map_cons, List.mem_cons, not_or] at h
    show mapLookup j (addPresenters ts (mapSet t.id (Presenter.init t) m)) = mapLookup j m
    rw [ih _ h.2, mapLookup_mapSet_ne _ _ _ _ h.1]

theorem mapLookup_addPresenters_of_mem (ts : List Task) (m : Registry) (t : Task)
    (hnd : (ts.map Task.id).Nodup) (ht : t ∈ ts) :
    mapLookup t.id (addPresenters ts m) = some (Presenter.init t) := by
  induction ts generalizing m with
  | nil => cases ht
  | cons u ts ih =>
    simp only [List.map_cons, List.nodup_cons] at hnd
    rcases List.mem_cons.mp ht with rfl | hmem
    · show mapLookup t.id (addPresenters ts (mapSet t.id (Presenter.init t) m)) = _
      rw [mapLookup_addPresenters_of_not_mem _ _ _ hnd.1, mapLookup_mapSet_self]
    · show mapLookup t.id (addPresenters ts (mapSet u.id (Presenter.init u) m)) = _
      exact ih _ hnd.2 hmem

theorem mapSet_mapSet (k : Nat) (v1 v2 : Presenter) (m : Registry) :
    mapSet k v2 (mapSet k v1 m) = mapSet k v2 m := by
  induction m with
  | nil => simp [mapSet]
  | cons e rest ih =>
    obtain ⟨a, b⟩ := e
    by_cases h : a = k <;> simp [mapSet, h, ih]

theorem filter_ne_mapSet (k : Nat) (v : Presenter) (m : Registry) :
    (mapSet k v m).filter (fun e => decide (e.1 ≠ k)) =
      m.filter (fun e => decide (e.1 ≠ k)) := by
  induction m with
  | nil => simp [mapSet]
  | cons e rest ih =>
    obtain ⟨a, b⟩ := e
    by_cases h : a = k
    · simp [mapSet, h]
    · simp [mapSet, h]
      simpa using ih

theorem mapSet_of_absent (k : Nat) (v : Presenter) (m : Registry)
    (h : mapLookup k m = none) : mapSet k v m = m ++ [(k, v)] := by
  induction m with
  | nil => rfl
  | cons e rest ih =>
    obtain ⟨a, b⟩ := e
    by_cases ha : a = k
    · simp [mapLookup, ha] at h
    · simp only [mapLookup, if_neg ha] at h
      simp [mapSet, ha, ih h]

theorem mapLookup_append_none (k : Nat) (m1 m2 : Registry)
    (h1 : mapLookup k m1 = none) (h2 : mapLookup k m2 = none) :
    mapLookup k (m1 ++ m2) = none := by
  induction m1 with
  | nil => simpa using h2
  | cons e rest ih =>
    obtain ⟨a, b⟩ := e
    by_cases ha : a = k
    · simp [mapLookup, ha] at h1
    · simp only [mapLookup, if_neg ha] at h1
      simp only [List.cons_append, mapLookup, if_neg ha]
      exact ih h1

theorem addPresenters_eq_append (ts : List Task) (m : Registry)
    (hnd : (ts.map Task.id).Nodup)
    (hdisj : ∀ t ∈ ts, mapLookup t.id m = none) :
    addPresenters ts m = m ++ ts.map (fun t => (t.id, Presenter.init t)) := by
  induction ts generalizing m with
  | nil => simp [addPresenters]
  | cons t ts ih =>
    simp only [List.map_cons, List.nodup_cons] at hnd
    have hne : ∀ u ∈ ts, mapLookup u.id (m ++ [(t.id, Presenter.init t)]) = none := by
      intro u hu
      have hut : t.id ≠ u.id := by
        intro he
        exact hnd.1 (by rw [he]; exact List.mem_map_of_mem Task.id hu)
      exact mapLookup_append_none _ _ _ (hdisj u (List.mem_cons_of_mem t hu))
        (by simp [mapLookup, hut])
    show addPresenters ts (mapSet t.id (Presenter.init t) m) = _
    rw [mapSet_of_absent _ _ _ (hdisj t (List.mem_cons_self t ts)), ih _ hnd.2 hne]
    simp

theorem addPresenters_nil_eq_map (ts : List Task) (hnd : (ts.map Task.id).Nodup) :
    addPresenters ts [] = ts.map (fun t => (t.id, Presenter.init t)) := by
  rw [addPresenters_eq_append ts [] hnd (fun t _ => rfl)]
  rfl

/-! ## Rendering lemmas -/

theorem renderTasks_eq (ts : List Task) (s : BoardState) :
    renderTasks ts s =
      { s with
        taskPresenter := addPresenters ts s.taskPresenter
        renderedList := s.renderedList ++ ts } := by
  induction ts generalizing s with
  | nil => simp [renderTasks, addPresenters]
  | cons t ts ih =>
    show renderTasks ts (renderTask t s) = _
    rw [ih]
    simp [renderTask, addPresenters]

theorem getTasks_congr (now : Int) (s s' : BoardState)
    (h1 : s'.tasks = s.tasks) (h2 : s'.filterType = s.filterType)
    (h3 : s'.currentSortType = s.currentSortType) :
    getTasks now s' = getTasks now s := by
  unfold getTasks filterTasks
  rw [h1, h2, h3]

theorem renderBoard_preserves (now : Int) (s : BoardState) :
    (renderBoard now s).tasks = s.tasks ∧
    (renderBoard now s).filterType = s.filterType ∧
    (renderBoard now s).currentSortType = s.currentSortType ∧
    (renderBoard now s).renderedTasksCount = s.renderedTasksCount ∧
    (renderBoard now s).isLoading = s.isLoading ∧
    (renderBoard now s).taskNewPresenter = s.taskNewPresenter := by
  unfold renderBoard
  split
  · simp [renderLoading]
  · split
    · simp [renderNoTasks]
    · split
      · simp [renderLoadMoreButton, renderTasks_eq, renderSort]
      · simp [renderTasks_eq, renderSort]

theorem renderBoard_loadingShown (now : Int) (s : BoardState) (h : s.isLoading = false) :
    (renderBoard now s).loadingShown = s.loadingShown := by
  unfold renderBoard
  rw [if_neg (by simp [h])]
  split
  · simp [renderNoTasks]
  · split
    · simp [renderLoadMoreButton, renderTasks_eq, renderSort]
    · simp [renderTasks_eq, renderSort]

theorem getTasks_renderBoard (now : Int) (s : BoardState) :
    getTasks now (renderBoard now s) = getTasks now s :=
  getTasks_congr now s (renderBoard now s)
    (renderBoard_preserves now s).1
    (renderBoard_preserves now s).2.1
    (renderBoard_preserves now s).2.2.1

/-! ## List lemmas -/

theorem take_min_length (v : List Task) (x : Nat) :
    v.take (min v.length x) = v.take x := by
  rcases Nat.le_total v.length x with h | h
  · rw [Nat.min_eq_left h, List.take_length, List.take_of_length_le h]
  · rw [Nat.min_eq_right h]

theorem filter_length_partition (l : List Task) (p : Task → Bool) :
    (l.filter p).length + (l.filter (fun x => !(p x))).length = l.length := by
  induction l with
  | nil => simp
  | cons x xs ih => by_cases h : p x <;> simp [List.filter, h] <;> omega

theorem insertByCmp_perm (cmp : Task → Task → Int) (x : Task) (l : List Task) :
    List.Perm (insertByCmp cmp x l) (x :: l) := by
  induction l with
  | nil => simp [insertByCmp]
  | cons y ys ih =>
    unfold insertByCmp
    split
    · exact List.Perm.refl _
    · exact List.Perm.trans (List.Perm.cons y ih) (List.Perm.swap x y ys)

theorem arraySort_perm (cmp : Task → Task → Int) (l : List Task) :
    List.Perm (arraySort cmp l) l := by
  induction l with
  | nil => exact List.Perm.refl _
  | cons x xs ih =>
    exact List.Perm.trans (insertByCmp_perm cmp x (arraySort cmp xs)) (List.Perm.cons x ih)

theorem getTasks_perm_filter (now : Int) (s : BoardState) :
    List.Perm (getTasks now s) (filterTasks now s.filterType s.tasks) := by
  unfold getTasks
  match h : s.currentSortType with
  | .DATE_UP => exact arraySort_perm _ _
  | .DATE_DOWN => exact arraySort_perm _ _
  | .DEFAULT => exact List.Perm.refl _

theorem getTasks_ids_nodup (now : Int) (s : BoardState)
    (h : (s.tasks.map Task.id).Nodup) :
    ((getTasks now s).map Task.id).Nodup := by
  have hf : ((filterTasks now s.filterType s.tasks).map Task.id).Nodup := by
    apply List.Nodup.sublist _ h
    exact List.Sublist.map Task.id (List.filter_sublist s.tasks)
  exact (List.Perm.nodup_iff (List.Perm.map Task.id (getTasks_perm_filter now s))).mpr hf

/-! ## Claim theorems -/

/-- Claim C7: with "now" fixed at the end-of-day moment `getCurrentDate()`
returns, `isTaskExpired` holds iff the due date is present and strictly
before that moment, `isTaskExpiringToday` holds iff the due date is present
and exactly equal to that moment, and both return `false` for a `null` due
date. -/
theorem expired_and_today_predicates (currentDate d : Int) :
    isTaskExpired currentDate none = false ∧
    isTaskExpiringToday currentDate none = false ∧
    (isTaskExpired currentDate (some d) = true ↔ d < currentDate) ∧
    (isTaskExpiringToday currentDate (some d) = true ↔ d = currentDate) := by
  refine ⟨rfl, rfl, ?_, ?_⟩
  · simp [isTaskExpired]
  · simp [isTaskExpiringToday, eq_comm]

/-- Claim C9: every task produced by `generateTask` satisfies the entity
invariant — a non-null due date forces all seven repeating flags to
`false`. -/
theorem generateTask_dueDate_excludes_repeating (isDate : Bool)
    (daysGap endOfToday : Int) (weFlag frFlag : Bool) (descIndex colorIndex : Nat)
    (isArchive isFavorite : Bool)
    (h : (generateTask isDate daysGap endOfToday weFlag frFlag descIndex colorIndex
      isArchive isFavorite).dueDate ≠ none) :
    (generateTask isDate daysGap endOfToday weFlag frFlag descIndex colorIndex
      isArchive isFavorite).repeating = RepeatingDays.allFalse := by
  cases isDate with
  | false => exact absurd rfl h
  | true => rfl

/-- Witness for C9 at a concrete draw with a present due date. -/
theorem generateTask_dueDate_excludes_repeating_witness :
    (generateTask true 1 0 true true 0 0 false false).dueDate ≠ none ∧
    (generateTask true 1 0 true true 0 0 false false).repeating = RepeatingDays.allFalse :=
  ⟨by decide, generateTask_dueDate_excludes_repeating true 1 0 true true 0 0 false false
    (by decide)⟩

/-- Claim C2 (code behaviour at the failing input): a dispatched `UPDATE`
action, a late failure callback, and a `PATCH` model notification that
reference an entity id with no registered item presenter are not no-ops —
each performs an unguarded property access on `undefined` and faults
(`TypeError`), contradicting the claim. -/
theorem missing_presenter_dispatch_faults :
    handleViewActionStart UserAction.UPDATE_TASK (mkTask 1) stalePresenterBoard =
      Except.error presenterLookupFault ∧
    handleViewActionResolve 0 UserAction.UPDATE_TASK UpdateType.PATCH (mkTask 1)
      ApiOutcome.failure stalePresenterBoard = Except.error presenterLookupFault ∧
    handleModelEvent 0 UpdateType.PATCH (mkTask 1) stalePresenterBoard =
      Except.error presenterLookupFault :=
  ⟨rfl, rfl, rfl⟩

/-- Claim C1: an `UPDATE` dispatch whose service call rejects leaves the
collection model untouched (the stored task for the id included), sets the
originating presenter to `ABORTING`, and issues exactly one service call —
no automatic retry. -/
theorem update_failure_leaves_model_and_aborts (now : Int) (updateType : UpdateType)
    (update : Task) (s : BoardState) (p : Presenter)
    (hp : mapLookup update.id s.taskPresenter = some p) :
    handleViewActionStart UserAction.UPDATE_TASK update s =
      Except.ok
        ({ s with taskPresenter := mapSet update.id { p with viewState := .SAVING } s.taskPresenter },
          [ApiCall.updateTask update]) ∧
    handleViewActionResolve now UserAction.UPDATE_TASK updateType update ApiOutcome.failure
        { s with taskPresenter := mapSet update.id { p with viewState := .SAVING } s.taskPresenter } =
      Except.ok
        ({ s with taskPresenter := mapSet update.id { p with viewState := .ABORTING } s.taskPresenter },
          []) ∧
    ({ s with taskPresenter := mapSet update.id { p with viewState := .ABORTING } s.taskPresenter }).tasks
      = s.tasks ∧
    findTaskById update.id
        ({ s with taskPresenter := mapSet update.id { p with viewState := .ABORTING } s.taskPresenter }).tasks
      = findTaskById update.id s.tasks ∧
    mapLookup update.id (mapSet update.id { p with viewState := .ABORTING } s.taskPresenter) =
      some { p with viewState := .ABORTING } := by
  refine ⟨?_, ?_, rfl, rfl, mapLookup_mapSet_self _ _ _⟩
  · simp [handleViewActionStart, hp]
  · simp [handleViewActionResolve, mapLookup_mapSet_self, mapSet_mapSet]

/-- Witness for C1 on a one-task board with its presenter registered. -/
theorem update_failure_leaves_model_and_aborts_witness :
    mapLookup (mkTask 1).id oneTaskBoard.taskPresenter = some (Presenter.init (mkTask 1)) ∧
    (handleViewActionStart UserAction.UPDATE_TASK (mkTask 1) oneTaskBoard =
      Except.ok
        ({ oneTaskBoard with
            taskPresenter :=
              mapSet (mkTask 1).id { Presenter.init (mkTask 1) with viewState := .SAVING }
                oneTaskBoard.taskPresenter },
          [ApiCall.updateTask (mkTask 1)]) ∧
    handleViewActionResolve 0 UserAction.UPDATE_TASK UpdateType.PATCH (mkTask 1)
        ApiOutcome.failure
        { oneTaskBoard with
          taskPresenter :=
            mapSet (mkTask 1).id { Presenter.init (mkTask 1) with viewState := .SAVING }
              oneTaskBoard.taskPresenter } =
      Except.ok
        ({ oneTaskBoard with
            taskPresenter :=
              mapSet (mkTask 1).id { Presenter.init (mkTask 1) with viewState := .ABORTING }
                oneTaskBoard.taskPresenter },
          []) ∧
    ({ oneTaskBoard with
        taskPresenter :=
          mapSet (mkTask 1).id { Presenter.init (mkTask 1) with viewState := .ABORTING }
            oneTaskBoard.taskPresenter }).tasks = oneTaskBoard.tasks ∧
    findTaskById (mkTask 1).id
        ({ oneTaskBoard with
            taskPresenter :=
              mapSet (mkTask 1).id { Presenter.init (mkTask 1) with viewState := .ABORTING }
                oneTaskBoard.taskPresenter }).tasks =
      findTaskById (mkTask 1).id oneTaskBoard.tasks ∧
    mapLookup (mkTask 1).id
        (mapSet (mkTask 1).id { Presenter.init (mkTask 1) with viewState := .ABORTING }
          oneTaskBoard.taskPresenter) =
      some { Presenter.init (mkTask 1) with viewState := .ABORTING }) :=
  ⟨rfl, update_failure_leaves_model_and_aborts 0 UpdateType.PATCH (mkTask 1) oneTaskBoard
    (Presenter.init (mkTask 1)) rfl⟩

/-- Claim C5: the model-event handler consumes each `UpdateType` as
specified — `PATCH` re-initialises only the affected row's presenter with
the new data (every other registry entry untouched, everything else of the
state unchanged); `MINOR` clears and re-renders without resetting the
pagination cursor (when it is within the visible count) or the sort mode;
`MAJOR` clears and re-renders with cursor and sort reset; `INIT` clears the
loading flag, dismisses the loading placeholder and renders the board. -/
theorem model_event_update_type_dispatch (now : Int) (data : Task) (s : BoardState)
    (p : Presenter)
    (hp : mapLookup data.id s.taskPresenter = some p)
    (hc : s.renderedTasksCount ≤ (getTasks now s).length) :
    handleModelEvent now UpdateType.PATCH data s =
      Except.ok { s with taskPresenter := mapSet data.id (Presenter.init data) s.taskPresenter } ∧
    mapLookup data.id (mapSet data.id (Presenter.init data) s.taskPresenter) =
      some (Presenter.init data) ∧
    (mapSet data.id (Presenter.init data) s.taskPresenter).filter
        (fun e => decide (e.1 ≠ data.id)) =
      s.taskPresenter.filter (fun e => decide (e.1 ≠ data.id)) ∧
    handleModelEvent now UpdateType.MINOR data s =
      Except.ok (renderBoard now (clearBoard now false false s)) ∧
    (renderBoard now (clearBoard now false false s)).currentSortType = s.currentSortType ∧
    (renderBoard now (clearBoard now false false s)).renderedTasksCount = s.renderedTasksCount ∧
    handleModelEvent now UpdateType.MAJOR data s =
      Except.ok (renderBoard now (clearBoard now true true s)) ∧
    (renderBoard now (clearBoard now true true s)).renderedTasksCount = TASK_AMOUNT_PER_STEP ∧
    (renderBoard now (clearBoard now true true s)).currentSortType = SortType.DEFAULT ∧
    handleModelEvent now UpdateType.INIT data s =
      Except.ok (renderBoard now { s with isLoading := false, loadingShown := false }) ∧
    (renderBoard now { s with isLoading := false, loadingShown := false }).isLoading = false ∧
    (renderBoard now { s with isLoading := false, loadingShown := false }).loadingShown = false := by
  refine ⟨?_, mapLookup_mapSet_self _ _ _, filter_ne_mapSet _ _ _, rfl, ?_, ?_, rfl, ?_, ?_,
    rfl, ?_, ?_⟩
  · simp [handleModelEvent, hp]
  · rw [(renderBoard_preserves now (clearBoard now false false s)).2.2.1]
    simp [clearBoard]
  · rw [(renderBoard_preserves now (clearBoard now false false s)).2.2.2.1]
    simp [clearBoard]
    omega
  · rw [(renderBoard_preserves now (clearBoard now true true s)).2.2.2.1]
    simp [clearBoard]
  · rw [(renderBoard_preserves now (clearBoard now true true s)).2.2.1]
    simp [clearBoard]
  · rw [(renderBoard_preserves now { s with isLoading := false, loadingShown := false }).2.2.2.2.1]
  · rw [renderBoard_loadingShown now { s with isLoading := false, loadingShown := false } rfl]

/-- Witness for C5 on a one-task board whose presenter is registered and
whose cursor is within the visible count. -/
theorem model_event_update_type_dispatch_witness :
    mapLookup (mkTask 1).id oneTaskBoard.taskPresenter = some (Presenter.init (mkTask 1)) ∧
    oneTaskBoard.renderedTasksCount ≤ (getTasks 0 oneTaskBoard).length ∧
    (handleModelEvent 0 UpdateType.PATCH (mkTask 1) oneTaskBoard =
      Except.ok
        { oneTaskBoard with
          taskPresenter :=
            mapSet (mkTask 1).id (Presenter.init (mkTask 1)) oneTaskBoard.taskPresenter } ∧
    mapLookup (mkTask 1).id
        (mapSet (mkTask 1).id (Presenter.init (mkTask 1)) oneTaskBoard.taskPresenter) =
      some (Presenter.init (mkTask 1)) ∧
    (mapSet (mkTask 1).id (Presenter.init (mkTask 1)) oneTaskBoard.taskPresenter).filter
        (fun e => decide (e.1 ≠ (mkTask 1).id)) =
      oneTaskBoard.taskPresenter.filter (fun e => decide (e.1 ≠ (mkTask 1).id)) ∧
    handleModelEvent 0 UpdateType.MINOR (mkTask 1) oneTaskBoard =
      Except.ok (renderBoard 0 (clearBoard 0 false false oneTaskBoard)) ∧
    (renderBoard 0 (clearBoard 0 false false oneTaskBoard)).currentSortType =
      oneTaskBoard.currentSortType ∧
    (renderBoard 0 (clearBoard 0 false false oneTaskBoard)).renderedTasksCount =
      oneTaskBoard.renderedTasksCount ∧
    handleModelEvent 0 UpdateType.MAJOR (mkTask 1) oneTaskBoard =
      Except.ok (renderBoard 0 (clearBoard 0 true true oneTaskBoard)) ∧
    (renderBoard 0 (clearBoard 0 true true oneTaskBoard)).renderedTasksCount =
      TASK_AMOUNT_PER_STEP ∧
    (renderBoard 0 (clearBoard 0 true true oneTaskBoard)).currentSortType =
      SortType.DEFAULT ∧
    handleModelEvent 0 UpdateType.INIT (mkTask 1) oneTaskBoard =
      Except.ok
        (renderBoard 0 { oneTaskBoard with isLoading := false, loadingShown := false }) ∧
    (renderBoard 0 { oneTaskBoard with isLoading := false, loadingShown := false }).isLoading =
      false ∧
    (renderBoard 0
        { oneTaskBoard with isLoading := false, loadingShown := false }).loadingShown =
      false) :=
  ⟨rfl, by decide,
    model_event_update_type_dispatch 0 (mkTask 1) oneTaskBoard (Presenter.init (mkTask 1))
      rfl (by decide)⟩

/-- Claim C6: for two dated tasks the ascending and descending comparators
are mutual negations (mutually reversed orderings); a task with an absent
due date compares after any dated task under both directions (the
documented tie-break: absent dates sort last); and on the scenario
collection `[{id 1, dueDate null}, {id 2, dueDate tomorrow}]` with filter
"all" and sort date-ascending the visible order is `[2, 1]`. -/
theorem sort_absent_dates_tiebreak (a b c : Task) (da db : Int)
    (ha : a.dueDate = some da) (hb : b.dueDate = some db) (hc : c.dueDate = none) :
    sortTasksUp a b = -(sortTasksDown a b) ∧
    sortTasksUp a c = -1 ∧ sortTasksDown a c = -1 ∧
    sortTasksUp c a = 1 ∧ sortTasksDown c a = 1 ∧
    getTasks 0 scenarioBoard = [scenarioTaskB, scenarioTaskA] ∧
    (getTasks 0 scenarioBoard).map Task.id = [2, 1] := by
  refine ⟨?_, ?_, ?_, ?_, ?_, by decide, by decide⟩
  · simp only [sortTasksUp, sortTasksDown, ha, hb]
    omega
  · simp [sortTasksUp, ha, hc]
  · simp [sortTasksDown, ha, hc]
  · simp [sortTasksUp, ha, hc]
  · simp [sortTasksDown, ha, hc]

/-- Witness for C6 at the scenario tasks (B is dated, A is undated). -/
theorem sort_absent_dates_tiebreak_witness :
    scenarioTaskB.dueDate = some 86400000 ∧ scenarioTaskA.dueDate = none ∧
    (sortTasksUp scenarioTaskB scenarioTaskB = -(sortTasksDown scenarioTaskB scenarioTaskB) ∧
    sortTasksUp scenarioTaskB scenarioTaskA = -1 ∧
    sortTasksDown scenarioTaskB scenarioTaskA = -1 ∧
    sortTasksUp scenarioTaskA scenarioTaskB = 1 ∧
    sortTasksDown scenarioTaskA scenarioTaskB = 1 ∧
    getTasks 0 scenarioBoard = [scenarioTaskB, scenarioTaskA] ∧
    (getTasks 0 scenarioBoard).map Task.id = [2, 1]) :=
  ⟨rfl, rfl,
    sort_absent_dates_tiebreak scenarioTaskB scenarioTaskB scenarioTaskA 86400000 86400000
      rfl rfl rfl⟩

/-- Claim C8: the filter/sort pipeline holds no internal state — its output
is a function of the collection, the filter category, the sort mode and
"now" alone (two board states agreeing on those produce identical visible
sequences) — and the filter places every task of the collection in exactly
one outcome: included or excluded, with the two parts summing to the whole
collection. -/
theorem pipeline_stateless_partition (now : Int) (s s' : BoardState) (t : Task)
    (h1 : s'.tasks = s.tasks) (h2 : s'.filterType = s.filterType)
    (h3 : s'.currentSortType = s.currentSortType) (ht : t ∈ s.tasks) :
    getTasks now s' = getTasks now s ∧
    ((t ∈ filterTasks now s.filterType s.tasks ∧ t ∉ excludedTasks now s.filterType s.tasks) ∨
      (t ∈ excludedTasks now s.filterType s.tasks ∧ t ∉ filterTasks now s.filterType s.tasks)) ∧
    (filterTasks now s.filterType s.tasks).length +
        (excludedTasks now s.filterType s.tasks).length = s.tasks.length := by
  refine ⟨getTasks_congr now s s' h1 h2 h3, ?_, filter_length_partition _ _⟩
  by_cases hpred : filterPredicate now s.filterType t = true
  · left
    refine ⟨List.mem_filter.mpr ⟨ht, hpred⟩, fun hmem => ?_⟩
    have hx := (List.mem_filter.mp hmem).2
    rw [hpred] at hx
    cases hx
  · have hfalse : filterPredicate now s.filterType t = false := by
      cases hval : filterPredicate now s.filterType t
      · rfl
      · exact absurd hval hpred
    right
    refine ⟨List.mem_filter.mpr ⟨ht, by rw [hfalse]; rfl⟩, fun hmem => ?_⟩
    exact hpred (List.mem_filter.mp hmem).2

/-- Witness for C8 on the scenario board and its undated task. -/
theorem pipeline_stateless_partition_witness :
    scenarioBoard.tasks = scenarioBoard.tasks ∧
    scenarioTaskA ∈ scenarioBoard.tasks ∧
    (getTasks 0 scenarioBoard = getTasks 0 scenarioBoard ∧
    ((scenarioTaskA ∈ filterTasks 0 scenarioBoard.filterType scenarioBoard.tasks ∧
        scenarioTaskA ∉ excludedTasks 0 scenarioBoard.filterType scenarioBoard.tasks) ∨
      (scenarioTaskA ∈ excludedTasks 0 scenarioBoard.filterType scenarioBoard.tasks ∧
        scenarioTaskA ∉ filterTasks 0 scenarioBoard.filterType scenarioBoard.tasks)) ∧
    (filterTasks 0 scenarioBoard.filterType scenarioBoard.tasks).length +
        (excludedTasks 0 scenarioBoard.filterType scenarioBoard.tasks).length =
      scenarioBoard.tasks.length) :=
  ⟨rfl, by decide,
    pipeline_stateless_partition 0 scenarioBoard scenarioBoard scenarioTaskA rfl rfl rfl
      (by decide)⟩

/-- Claim C10: a structural clear destroys the creation presenter and every
item presenter and empties the registry; a full re-render (clear followed
by `_renderBoard`) then leaves the registry holding exactly one presenter
per materialized task, keyed by that task's id, and the rendered rows are
exactly the materialized window of the visible sequence. -/
theorem clear_and_rerender_registry (now : Int) (r1 r2 : Bool) (s : BoardState)
    (hload : s.isLoading = false)
    (hnd : (s.tasks.map Task.id).Nodup) :
    (clearBoard now r1 r2 s).taskPresenter = [] ∧
    (clearBoard now r1 r2 s).taskNewPresenter = NewPresenterState.inactive ∧
    (clearBoard now r1 r2 s).renderedList = [] ∧
    (renderBoard now (clearBoard now r1 r2 s)).taskPresenter =
      ((getTasks now (clearBoard now r1 r2 s)).take
          (min (getTasks now (clearBoard now r1 r2 s)).length
            (clearBoard now r1 r2 s).renderedTasksCount)).map
        (fun t => (t.id, Presenter.init t)) ∧
    (renderBoard now (clearBoard now r1 r2 s)).renderedList =
      (getTasks now (clearBoard now r1 r2 s)).take
        (min (getTasks now (clearBoard now r1 r2 s)).length
          (clearBoard now r1 r2 s).renderedTasksCount) := by
  have hXload : (clearBoard now r1 r2 s).isLoading = false := hload
  have hnodX : ((getTasks now (clearBoard now r1 r2 s)).map Task.id).Nodup :=
    getTasks_ids_nodup now (clearBoard now r1 r2 s) hnd
  have hslice : (((getTasks now (clearBoard now r1 r2 s)).take
      (min (getTasks now (clearBoard now r1 r2 s)).length
        (clearBoard now r1 r2 s).renderedTasksCount)).map Task.id).Nodup := by
    rw [List.map_take]
    exact hnodX.sublist (List.take_sublist _ _)
  refine ⟨rfl, rfl, rfl, ?_, ?_⟩
  · unfold renderBoard
    rw [if_neg (by simp [hXload])]
    by_cases h0 : (getTasks now (clearBoard now r1 r2 s)).length = 0
    · rw [if_pos h0]
      have hnil : getTasks now (clearBoard now r1 r2 s) = [] :=
        List.eq_nil_of_length_eq_zero h0
      rw [hnil]
      simp [renderNoTasks, clearBoard]
    · rw [if_neg h0]
      split
      · simp only [renderLoadMoreButton, renderTasks_eq, renderSort]
        exact addPresenters_nil_eq_map _ hslice
      · simp only [renderTasks_eq, renderSort]
        exact addPresenters_nil_eq_map _ hslice
  · unfold renderBoard
    rw [if_neg (by simp [hXload])]
    by_cases h0 : (getTasks now (clearBoard now r1 r2 s)).length = 0
    · rw [if_pos h0]
      have hnil : getTasks now (clearBoard now r1 r2 s) = [] :=
        List.eq_nil_of_length_eq_zero h0
      rw [hnil]
      simp [renderNoTasks, clearBoard]
    · rw [if_neg h0]
      split
      · simp [renderLoadMoreButton, renderTasks_eq, renderSort, clearBoard]
      · simp [renderTasks_eq, renderSort, clearBoard]

/-- Witness for C10 on a board carrying a stale presenter for id 99 and an
open creation presenter. -/
theorem clear_and_rerender_registry_witness :
    staleRegistryBoard.isLoading = false ∧
    (staleRegistryBoard.tasks.map Task.id).Nodup ∧
    ((clearBoard 0 false false staleRegistryBoard).taskPresenter = [] ∧
    (clearBoard 0 false false staleRegistryBoard).taskNewPresenter =
      NewPresenterState.inactive ∧
    (clearBoard 0 false false staleRegistryBoard).renderedList = [] ∧
    (renderBoard 0 (clearBoard 0 false false staleRegistryBoard)).taskPresenter =
      ((getTasks 0 (clearBoard 0 false false staleRegistryBoard)).take
          (min (getTasks 0 (clearBoard 0 false false staleRegistryBoard)).length
            (clearBoard 0 false false staleRegistryBoard).renderedTasksCount)).map
        (fun t => (t.id, Presenter.init t)) ∧
    (renderBoard 0 (clearBoard 0 false false staleRegistryBoard)).renderedList =
      (getTasks 0 (clearBoard 0 false false staleRegistryBoard)).take
        (min (getTasks 0 (clearBoard 0 false false staleRegistryBoard)).length
          (clearBoard 0 false false staleRegistryBoard).renderedTasksCount)) :=
  ⟨rfl, by decide,
    clear_and_rerender_registry 0 false false staleRegistryBoard rfl (by decide)⟩

/-! ## Pagination lemmas -/

theorem loadMore_effect (now : Int) (s : BoardState) :
    (handleLoadMoreButtonClick now s).tasks = s.tasks ∧
    (handleLoadMoreButtonClick now s).filterType = s.filterType ∧
    (handleLoadMoreButtonClick now s).currentSortType = s.currentSortType ∧
    (handleLoadMoreButtonClick now s).renderedTasksCount = loadMoreNewCount now s ∧
    (handleLoadMoreButtonClick now s).renderedList =
      s.renderedList ++
        ((getTasks now s).drop s.renderedTasksCount).take
          (loadMoreNewCount now s - s.renderedTasksCount) ∧
    (handleLoadMoreButtonClick now s).loadMoreButtonPresent =
      (if (getTasks now s).length ≤ loadMoreNewCount now s then false
        else s.loadMoreButtonPresent) := by
  unfold handleLoadMoreButtonClick
  split
  case isTrue h => simp [renderTasks_eq, h]
  case isFalse h => simp [renderTasks_eq, h]

theorem getTasks_loadMore (now : Int) (s : BoardState) :
    getTasks now (handleLoadMoreButtonClick now s) = getTasks now s :=
  getTasks_congr now s (handleLoadMoreButtonClick now s)
    (loadMore_effect now s).1
    (loadMore_effect now s).2.1
    (loadMore_effect now s).2.2.1

theorem take_glue (v : List Task) (c d : Nat) :
    v.take c ++ (v.drop c).take (d - c) = v.take (max c d) := by
  rcases Nat.le_total c d with h | h
  · rw [Nat.max_eq_right h, ← List.take_add]
    congr 1
    omega
  · rw [Nat.max_eq_left h, Nat.sub_eq_zero_of_le h]
    simp

theorem renderBoard_fresh (now : Int) (s : BoardState)
    (hload : s.isLoading = false) (hrl : s.renderedList = [])
    (hbtn : s.loadMoreButtonPresent = false) :
    (renderBoard now s).renderedList = (getTasks now s).take s.renderedTasksCount ∧
    ((renderBoard now s).loadMoreButtonPresent = true ↔
      s.renderedTasksCount < (getTasks now s).length) := by
  unfold renderBoard
  rw [if_neg (by simp [hload])]
  by_cases h0 : (getTasks now s).length = 0
  · rw [if_pos h0]
    have hnil := List.eq_nil_of_length_eq_zero h0
    rw [hnil]
    constructor
    · simp [renderNoTasks, hrl]
    · simp [renderNoTasks, hbtn]
  · rw [if_neg h0]
    split
    next h =>
      constructor
      · simp [renderLoadMoreButton, renderTasks_eq, renderSort, hrl]
        omega
      · simp only [renderLoadMoreButton, renderTasks_eq, renderSort]
        simp
        omega
    next h =>
      constructor
      · simp [renderTasks_eq, renderSort, hrl]
        omega
      · simp only [renderTasks_eq, renderSort]
        simp [hbtn]
        omega

theorem loadMore_step_abstract (v : List Task) (c k8 : Nat)
    (hc : c = min v.length k8 ∨ c = k8) :
    v.take k8 ++ (v.drop c).take (min v.length (c + 8) - c) = v.take (k8 + 8) ∧
    min v.length (c + 8) = min v.length (k8 + 8) := by
  have htake : v.take c = v.take k8 := by
    rcases hc with h | h
    · rw [h]
      exact take_min_length v k8
    · rw [h]
  have hmin : min v.length (c + 8) = min v.length (k8 + 8) := by
    rcases hc with h | h <;> subst h <;> omega
  refine ⟨?_, hmin⟩
  rw [← htake, take_glue]
  rcases Nat.le_total c v.length with hcn | hcn
  · have hm : max c (min v.length (c + 8)) = min v.length (c + 8) := by omega
    rw [hm, hmin]
    exact take_min_length _ _
  · have hlen : v.length ≤ k8 + 8 := by
      rcases hc with h | h <;> omega
    have hm : max c (min v.length (c + 8)) = c := by omega
    rw [hm, List.take_of_length_le hcn, List.take_of_length_le hlen]

theorem loadMoreIter_spec (now : Int) (tasks : List Task) (ft : FilterType)
    (st : SortType) (k : Nat) :
    getTasks now (loadMoreIter now k (initialRender now tasks ft st)) =
      visibleOf now tasks ft st ∧
    (loadMoreIter now k (initialRender now tasks ft st)).renderedList =
      (visibleOf now tasks ft st).take (8 * (k + 1)) ∧
    (loadMoreIter now k (initialRender now tasks ft st)).renderedTasksCount =
      (if k = 0 then 8 else min (visibleOf now tasks ft st).length (8 * (k + 1))) ∧
    ((loadMoreIter now k (initialRender now tasks ft st)).loadMoreButtonPresent = true ↔
      8 * (k + 1) < (visibleOf now tasks ft st).length) := by
  induction k with
  | zero =>
    have hfresh := renderBoard_fresh now (freshBoardState tasks ft st) rfl rfl rfl
    refine ⟨getTasks_renderBoard now (freshBoardState tasks ft st), ?_, ?_, ?_⟩
    · show (renderBoard now (freshBoardState tasks ft st)).renderedList = _
      rw [hfresh.1]
      norm_num [freshBoardState, TASK_AMOUNT_PER_STEP, visibleOf]
    · show (renderBoard now (freshBoardState tasks ft st)).renderedTasksCount = _
      rw [(renderBoard_preserves now (freshBoardState tasks ft st)).2.2.2.1]
      simp [freshBoardState, TASK_AMOUNT_PER_STEP]
    · show (renderBoard now (freshBoardState tasks ft st)).loadMoreButtonPresent = true ↔ _
      rw [hfresh.2]
      norm_num [freshBoardState, TASK_AMOUNT_PER_STEP, visibleOf]
  | succ k ih =>
    obtain ⟨ihg, ihr, ihc, ihb⟩ := ih
    obtain ⟨-, -, -, hc, hr, hb⟩ :=
      loadMore_effect now (loadMoreIter now k (initialRender now tasks ft st))
    have hcv : (loadMoreIter now k (initialRender now tasks ft st)).renderedTasksCount =
          min (visibleOf now tasks ft st).length (8 * (k + 1)) ∨
        (loadMoreIter now k (initialRender now tasks ft st)).renderedTasksCount =
          8 * (k + 1) := by
      rw [ihc]
      by_cases hk : k = 0
      · right
        simp [hk]
      · left
        rw [if_neg hk]
    obtain ⟨hstep1, hstep2⟩ := loadMore_step_abstract (visibleOf now tasks ft st)
      ((loadMoreIter now k (initialRender now tasks ft st)).renderedTasksCount)
      (8 * (k + 1)) hcv
    have hnewc : loadMoreNewCount now (loadMoreIter now k (initialRender now tasks ft st)) =
        min (visibleOf now tasks ft st).length
          ((loadMoreIter now k (initialRender now tasks ft st)).renderedTasksCount + 8) := by
      unfold loadMoreNewCount TASK_AMOUNT_PER_STEP
      rw [ihg]
    have h8 : 8 * (k + 1 + 1) = 8 * (k + 1) + 8 := by ring
    have hgoal : getTasks now (loadMoreIter now (k + 1) (initialRender now tasks ft st)) =
        visibleOf now tasks ft st := by
      simp only [loadMoreIter]
      rw [getTasks_loadMore, ihg]
    refine ⟨hgoal, ?_, ?_, ?_⟩
    · simp only [loadMoreIter]
      rw [hr, ihr, ihg, hnewc, h8]
      exact hstep1
    · simp only [loadMoreIter]
      rw [hc, hnewc, if_neg (Nat.succ_ne_zero k), h8]
      exact hstep2
    · simp only [loadMoreIter]
      rw [hb, ihg, hnewc, hstep2]
      by_cases hle : (visibleOf now tasks ft st).length ≤
          min (visibleOf now tasks ft st).length (8 * (k + 1) + 8)
      · rw [if_pos hle]
        simp only [Bool.false_eq_true, false_iff]
        omega
      · rw [if_neg hle, ihb]
        omega

/-- Claim C3: with page size 8 (`TASK_AMOUNT_PER_STEP`), after `k`
load-more clicks on a freshly rendered board the materialized rows are
exactly the first `min(n, 8*(k+1))` elements of the visible sequence; each
further click appends only the newly revealed slice
`tasks.slice(renderedTasksCount, newRenderedTaskCount)` of the visible
sequence; and the load-more control is present iff the materialized count
is strictly below the visible count. -/
theorem pagination_loadMore (now : Int) (tasks : List Task) (ft : FilterType)
    (st : SortType) (k : Nat) :
    (loadMoreIter now k (initialRender now tasks ft st)).renderedList =
      (visibleOf now tasks ft st).take (TASK_AMOUNT_PER_STEP * (k + 1)) ∧
    (loadMoreIter now k (initialRender now tasks ft st)).renderedList.length =
      min (visibleOf now tasks ft st).length (TASK_AMOUNT_PER_STEP * (k + 1)) ∧
    ((loadMoreIter now k (initialRender now tasks ft st)).loadMoreButtonPresent = true ↔
      (loadMoreIter now k (initialRender now tasks ft st)).renderedList.length <
        (visibleOf now tasks ft st).length) ∧
    (loadMoreIter now (k + 1) (initialRender now tasks ft st)).renderedList =
      (loadMoreIter now k (initialRender now tasks ft st)).renderedList ++
        ((visibleOf now tasks ft st).drop
            (loadMoreIter now k (initialRender now tasks ft st)).renderedTasksCount).take
          (loadMoreNewCount now (loadMoreIter now k (initialRender now tasks ft st)) -
            (loadMoreIter now k (initialRender now tasks ft st)).renderedTasksCount) := by
  obtain ⟨hg, hrend, hcur, hbtn⟩ := loadMoreIter_spec now tasks ft st k
  refine ⟨hrend, ?_, ?_, ?_⟩
  · simp only [TASK_AMOUNT_PER_STEP]
    rw [hrend, List.length_take]
    omega
  · rw [hbtn, hrend, List.length_take]
    omega
  · simp only [loadMoreIter]
    rw [(loadMore_effect now (loadMoreIter now k (initialRender now tasks ft st))).2.2.2.2.1,
      hg]

/-- Claim C4 counterexample: a board that has materialized 16 rows receives
a `MINOR` model event after the visible set shrank to 15 tasks; the handler
clamps the pagination cursor from 16 down to 15 — a `MINOR` event that
decreases the cursor, contradicting "no MINOR model event decreases it". -/
theorem minor_event_decreases_cursor :
    shrunkBoard.renderedTasksCount = 16 ∧
    (handleModelEvent 0 UpdateType.MINOR (mkTask 0) shrunkBoard).toOption.map
        (fun x => x.renderedTasksCount) = some 15 :=
  ⟨rfl, rfl⟩

/-- Claim C4 (amended): the pagination cursor is reset to the page size on
a sort change and on a `MAJOR` update; a `MINOR` update does not reset it
but clamps it to `min(visible count, cursor)` — so it decreases exactly
when the visible set has shrunk below the cursor — and a load-more click
never decreases it while it is within the visible count. -/
theorem cursor_reset_and_clamp (now : Int) (st : SortType) (data : Task) (s : BoardState)
    (hsort : s.currentSortType ≠ st)
    (hcur : s.renderedTasksCount ≤ (getTasks now s).length) :
    (handleSortTypeChange now st s).renderedTasksCount = TASK_AMOUNT_PER_STEP ∧
    (handleModelEvent now UpdateType.MAJOR data s).toOption.map
        (fun x => x.renderedTasksCount) = some TASK_AMOUNT_PER_STEP ∧
    (handleModelEvent now UpdateType.MINOR data s).toOption.map
        (fun x => x.renderedTasksCount) =
      some (min (getTasks now s).length s.renderedTasksCount) ∧
    s.renderedTasksCount ≤ (handleLoadMoreButtonClick now s).renderedTasksCount := by
  refine ⟨?_, ?_, ?_, ?_⟩
  · unfold handleSortTypeChange
    rw [if_neg hsort]
    rw [(renderBoard_preserves now
      (clearBoard now true false { s with currentSortType := st })).2.2.2.1]
    simp [clearBoard]
  · have he : handleModelEvent now UpdateType.MAJOR data s =
        Except.ok (renderBoard now (clearBoard now true true s)) := rfl
    rw [he]
    show some (renderBoard now (clearBoard now true true s)).renderedTasksCount =
      some TASK_AMOUNT_PER_STEP
    rw [(renderBoard_preserves now (clearBoard now true true s)).2.2.2.1]
    simp [clearBoard]
  · have he : handleModelEvent now UpdateType.MINOR data s =
        Except.ok (renderBoard now (clearBoard now false false s)) := rfl
    rw [he]
    show some (renderBoard now (clearBoard now false false s)).renderedTasksCount =
      some (min (getTasks now s).length s.renderedTasksCount)
    rw [(renderBoard_preserves now (clearBoard now false false s)).2.2.2.1]
    simp [clearBoard]
  · rw [(loadMore_effect now s).2.2.2.1]
    unfold loadMoreNewCount TASK_AMOUNT_PER_STEP
    omega

/-- Witness for the amended C4 on a one-task board changing its sort mode
to date-ascending. -/
theorem cursor_reset_and_clamp_witness :
    oneTaskBoard.currentSortType ≠ SortType.DATE_UP ∧
    oneTaskBoard.renderedTasksCount ≤ (getTasks 0 oneTaskBoard).length ∧
    ((handleSortTypeChange 0 SortType.DATE_UP oneTaskBoard).renderedTasksCount =
      TASK_AMOUNT_PER_STEP ∧
    (handleModelEvent 0 UpdateType.MAJOR (mkTask 1) oneTaskBoard).toOption.map
        (fun x => x.renderedTasksCount) = some TASK_AMOUNT_PER_STEP ∧
    (handleModelEvent 0 UpdateType.MINOR (mkTask 1) oneTaskBoard).toOption.map
        (fun x => x.renderedTasksCount) =
      some (min (getTasks 0 oneTaskBoard).length oneTaskBoard.renderedTasksCount) ∧
    oneTaskBoard.renderedTasksCount ≤
      (handleLoadMoreButtonClick 0 oneTaskBoard).renderedTasksCount) :=
  ⟨by decide, by decide,
    cursor_reset_and_clamp 0 SortType.DATE_UP (mkTask 1) oneTaskBoard (by decide) (by decide)⟩

end TaskManager
